import Mathlib

/-!
Shallow embedding of the cloud-recording orchestration component of the
agora-token-service repository (Go).  Pure data structures are translated from
`cloud_recording_service/cloud_recording_structs.go`; the HTTP helper
`makeRequest` from `cloud_recording_service/cloud_recording_handlers.go`
(lines 323-349); the passthrough handlers from the same file; and the
composite `StartRecording` orchestrator from the revision held in
`src/unnamed/part_004`.  Network I/O is modelled by explicit oracles
(`Transport`, `Upstream`) and every handler returns, besides its outcome, the
list of upstream calls it performed, so that sequencing and call-count
properties can be stated.
-/

/-! ## Data structures (cloud_recording_structs.go) -/

/-- `ExtensionParams` (structs.go lines 60-63).  Go zero values as defaults. -/
structure ExtensionParams where
  SSE : String := ""
  Tag : String := ""
  deriving DecidableEq

/-- `LayoutConfig` (structs.go lines 100-108). -/
structure LayoutConfig where
  Uid : String := ""
  XAxis : Int := 0
  YAxis : Int := 0
  Width : Int := 0
  Height : Int := 0
  Alpha : Int := 0
  RenderMode : Int := 0
  deriving DecidableEq

/-- `BackgroundConfig` (structs.go lines 111-115). -/
structure BackgroundConfig where
  Uid : String := ""
  ImageURL : String := ""
  RenderMode : Int := 0
  deriving DecidableEq

/-- `TranscodingConfig` (structs.go lines 85-97). -/
structure TranscodingConfig where
  Width : Int := 0
  Height : Int := 0
  Fps : Int := 0
  Bitrate : Int := 0
  MaxResolutionUid : String := ""
  MixedVideoLayout : Int := 0
  BackgroundColor : String := ""
  BackgroundImage : String := ""
  DefaultUserBackgroundImage : String := ""
  LayoutConfig : List LayoutConfig := []
  BackgroundConfig : List BackgroundConfig := []
  deriving DecidableEq

/-- `RecordingConfig` (structs.go lines 66-82). -/
structure RecordingConfig where
  ChannelType : Int := 0
  DecryptionMode : Int := 0
  Secret : String := ""
  Salt : String := ""
  MaxIdleTime : Int := 0
  StreamTypes : Int := 0
  VideoStreamType : Int := 0
  SubscribeAudioUids : List String := []
  UnsubscribeAudioUids : List String := []
  SubscribeVideoUids : List String := []
  UnsubscribeVideoUids : List String := []
  SubscribeUidGroup : Int := 0
  StreamMode : String := ""
  AudioProfile : Int := 0
  TranscodingConfig : TranscodingConfig := {}
  deriving DecidableEq

/-- `StorageConfig` (structs.go lines 49-57). -/
structure StorageConfig where
  Vendor : Int := 0
  Region : Int := 0
  Bucket : String := ""
  AccessKey : String := ""
  SecretKey : String := ""
  FileNamePrefix : List String := []
  ExtensionParams : ExtensionParams := {}
  deriving DecidableEq

/-- `RecordingFileConfig` (structs.go lines 118-120). -/
structure RecordingFileConfig where
  AVFileType : List String := []
  deriving DecidableEq

/-- `SnapshotConfig` (structs.go lines 123-126). -/
structure SnapshotConfig where
  CaptureInterval : Int := 0
  FileType : List String := []
  deriving DecidableEq

/-- `ServiceParam` (structs.go lines 142-154). -/
structure ServiceParam where
  URL : String := ""
  AudioProfile : Int := 0
  VideoWidth : Int := 0
  VideoHeight : Int := 0
  MaxRecordingHour : Int := 0
  VideoBitrate : Int := 0
  VideoFps : Int := 0
  Mobile : Bool := false
  MaxVideoDuration : Int := 0
  OnHold : Bool := false
  ReadyTimeout : Int := 0
  deriving DecidableEq

/-- `ExtensionService` (structs.go lines 135-139). -/
structure ExtensionService where
  ServiceName : String := ""
  ErrorHandlePolicy : String := ""
  ServiceParam : ServiceParam := {}
  deriving DecidableEq

/-- `ExtensionServiceConfig` (structs.go lines 129-132). -/
structure ExtensionServiceConfig where
  ErrorHandlePolicy : String := ""
  ExtensionServices : List ExtensionService := []
  deriving DecidableEq

/-- `AppsCollection` (structs.go lines 157-159). -/
structure AppsCollection where
  CombinationPolicy : String := ""
  deriving DecidableEq

/-- `TransConfig` (structs.go lines 169-171). -/
structure TransConfig where
  TransMode : String := ""
  deriving DecidableEq

/-- `Container` (structs.go lines 174-176). -/
structure Container where
  Format : String := ""
  deriving DecidableEq

/-- `Audio` (structs.go lines 179-183). -/
structure Audio where
  SampleRate : String := ""
  Bitrate : String := ""
  Channels : String := ""
  deriving DecidableEq

/-- `TranscodeOptions` (structs.go lines 162-166). -/
structure TranscodeOptions where
  TransConfig : TransConfig := {}
  Container : Container := {}
  Audio : Audio := {}
  deriving DecidableEq

/-- `StartParameter` (structs.go lines 36-45). -/
structure StartParameter where
  Token : String := ""
  StorageConfig : StorageConfig := {}
  RecordingConfig : RecordingConfig := {}
  RecordingFileConfig : RecordingFileConfig := {}
  SnapshotConfig : SnapshotConfig := {}
  ExtensionServiceConfig : ExtensionServiceConfig := {}
  AppsCollection : AppsCollection := {}
  TranscodeOptions : TranscodeOptions := {}
  deriving DecidableEq

/-- `ClientRequest` (structs.go lines 27-32): the provider-facing
`clientRequest` block nested in a start/stop/update payload. -/
structure ClientRequest where
  Scene : Int := 0
  ResourceExpiredHour : Int := 0
  StartParameter : StartParameter := {}
  ExcludeResourceIds : List String := []
  deriving DecidableEq

/-- `ClientStartRecordingRequest` (structs.go lines 4-8): the caller-facing
payload of POST /cloud_recording/startRecording.  It has exactly the three
fields below; in particular no storage configuration and no
excludeResourceIds field. -/
structure ClientStartRecordingRequest where
  ChannelName : String := ""
  RecordingMode : String := ""
  RecordingConfig : RecordingConfig := {}
  deriving DecidableEq

/-- `AcquireResourceRequest` (structs.go lines 12-16).  The Go field
`ClientRequest map[string]interface{}` is always the empty map at the one
construction site (part_004 line 100); modelled as an association list. -/
structure AcquireResourceRequest where
  Cname : String := ""
  Uid : String := ""
  ClientRequest : List (String × String) := []
  deriving DecidableEq

/-- `StartRecordingRequest` (structs.go lines 20-24): the provider-facing
payload for start, also reused for stop and the update operations. -/
structure StartRecordingRequest where
  Cname : String := ""
  Uid : String := ""
  ClientRequest : ClientRequest := {}
  deriving DecidableEq

/-- `token_service.TokenRequest` as used at part_004 lines 109-113: only the
TokenType, Channel and Uid fields are set there.  Modelled from the spec:
the Token Issuer collaborator is external (spec section 1), its request type
is not under src/. -/
structure TokenRequest where
  TokenType : String := ""
  Channel : String := ""
  Uid : String := ""
  deriving DecidableEq

/-- The `CloudRecordingService` receiver struct.  Merges the configuration
fields of the two revisions present in the repository
(cloud_recording_service.go lines 18-28 and part_004 lines 15-21) that the
embedded handlers read: appID, appCertificate, customerID,
customerCertificate, baseURL, storageConfig. -/
structure CloudRecordingService where
  appID : String := ""
  appCertificate : String := ""
  customerID : String := ""
  customerCertificate : String := ""
  baseURL : String := ""
  storageConfig : StorageConfig := {}
  deriving DecidableEq

/-! ## Base64 (Go encoding/base64 StdEncoding) -/

/-- The standard base64 alphabet used by Go `base64.StdEncoding`. -/
def base64Alphabet : List Char :=
  "ABCDEFGHIJKLMNOPQRSTUVWXYZabcdefghijklmnopqrstuvwxyz0123456789+/".toList

/-- The base64 digit for a 6-bit value. -/
def b64Char (n : Nat) : Char := base64Alphabet.getD n 'A'

/-- Encode a byte list in 3-byte groups, with `=` padding, exactly as Go
`base64.StdEncoding.EncodeToString` does. -/
def base64EncodeChunks : List Nat → List Char
  | [] => []
  | [b0] => [b64Char (b0 / 4), b64Char (b0 % 4 * 16), '=', '=']
  | [b0, b1] => [b64Char (b0 / 4), b64Char (b0 % 4 * 16 + b1 / 16), b64Char (b1 % 16 * 4), '=']
  | b0 :: b1 :: b2 :: rest =>
      b64Char (b0 / 4) :: b64Char (b0 % 4 * 16 + b1 / 16) ::
      b64Char (b1 % 16 * 4 + b2 / 64) :: b64Char (b2 % 64) :: base64EncodeChunks rest

/-- `base64.StdEncoding.EncodeToString` on a byte list. -/
def base64Encode (bs : List Nat) : String := String.mk (base64EncodeChunks bs)

/-- The bytes of a string (ASCII assumption: one byte per character, as for
the credential strings these handlers encode). -/
def strBytes (s : String) : List Nat := s.toList.map Char.toNat

/-- The basic-auth value every handler of cloud_recording_handlers.go
computes, e.g. at line 76:
`base64.StdEncoding.EncodeToString([]byte(fmt.Sprintf("%s:%s", s.customerID, s.customerCertificate)))`. -/
def customerAuth (s : CloudRecordingService) : String :=
  base64Encode (strBytes (s.customerID ++ ":" ++ s.customerCertificate))

/-! ## makeRequest (cloud_recording_handlers.go lines 323-349) -/

/-- The response from the provider: a status code and a raw body. -/
structure HttpResponse where
  statusCode : Nat
  body : String
  deriving DecidableEq

/-- A transport oracle: given method, url and the Authorization header value,
either a transport-level error (request creation, network failure, timeout,
body-read failure) or the provider's response. -/
def Transport : Type := String → String → String → Except String HttpResponse

/-- The `http.Client` value relevant to this component: only its Timeout
field matters.  `none` models the Go zero value `Timeout: 0`, which means no
timeout at all. -/
structure HttpClient where
  timeout : Option Nat := none
  deriving DecidableEq

/-- The client constructed by `client := &http.Client{}` at
cloud_recording_handlers.go line 324: a zero-value client, hence no timeout. -/
def newGoHttpClient : HttpClient := {}

/-- The Authorization header set at line 330:
`req.Header.Set("Authorization", "Basic "+auth)`. -/
def authorizationHeader (auth : String) : String := "Basic " ++ auth

/-- `makeRequest` (cloud_recording_handlers.go lines 323-349).  Returns the
result together with the `http.Client` value the call constructed for
itself (line 324).  A transport error yields
`request failed: ...` (line 335); a response with status at least 300
yields `error response from server: <body>` (line 345); otherwise the body
is returned unchanged (line 348). -/
def makeRequest (t : Transport) (method url auth : String) :
    Except String String × HttpClient :=
  let client : HttpClient := newGoHttpClient
  match t method url (authorizationHeader auth) with
  | .error e => (.error ("request failed: " ++ e), client)
  | .ok resp =>
      if resp.statusCode ≥ 300 then
        (.error ("error response from server: " ++ resp.body), client)
      else
        (.ok resp.body, client)

/-- A transport that always answers with the fixed response `r`. -/
def respTransport (r : HttpResponse) : Transport := fun _ _ _ => .ok r

/-- A transport that always fails at the network level with message `e`. -/
def failTransport (e : String) : Transport := fun _ _ _ => .error e

/-! ## Passthrough handlers (cloud_recording_handlers.go) -/

/-- One upstream action performed by a handler: either an HTTP call through
`makeRequest` (recorded with the method, the url and the basic-auth value
passed to it) or a token issuance through `s.tokenService.GenRtcToken`. -/
inductive HandlerCall where
  | http (method url auth : String)
  | issueToken (req : TokenRequest)
  deriving DecidableEq

/-- The basic-auth value carried by a call, if it is an HTTP call. -/
def callAuth : HandlerCall → Option String
  | .http _ _ a => some a
  | .issueToken _ => none

/-- A handler outcome: the relayed provider body on success
(`c.Data(http.StatusOK, ...)`), or an error JSON with an HTTP status. -/
inductive HandlerOutcome where
  | ok (body : String)
  | errorJSON (status : Nat) (msg : String)
  deriving DecidableEq

/-- `AcquireResource` (cloud_recording_handlers.go lines 68-91), after the
request body has been bound.  Builds the acquire URL (line 75), the
customer-pair auth (line 76), and performs one POST through `makeRequest`. -/
def AcquireResource (s : CloudRecordingService) (t : Transport)
    (req : AcquireResourceRequest) : HandlerOutcome × List HandlerCall :=
  let url := s.baseURL ++ "/" ++ s.appID ++ "/cloud_recording/acquire"
  let auth := customerAuth s
  let _ := req
  (match (makeRequest t "POST" url auth).1 with
   | .error e => .errorJSON 500 e
   | .ok resp => .ok resp,
   [.http "POST" url auth])

/-- `StopRecording` (cloud_recording_handlers.go lines 163-190), after the
request body has been bound and the resourceid/sid/mode parameters read.
Builds the stop URL (line 174) and performs one POST through `makeRequest`. -/
def StopRecording (s : CloudRecordingService) (t : Transport)
    (resourceID sid mode : String) (req : StartRecordingRequest) :
    HandlerOutcome × List HandlerCall :=
  let url := s.baseURL ++ "/" ++ s.appID ++ "/cloud_recording/resourceid/" ++ resourceID ++
    "/sid/" ++ sid ++ "/mode/" ++ mode ++ "/stop"
  let auth := customerAuth s
  let _ := req
  (match (makeRequest t "POST" url auth).1 with
   | .error e => .errorJSON 500 e
   | .ok resp => .ok resp,
   [.http "POST" url auth])

/-- `GetStatus` (cloud_recording_handlers.go lines 205-220).  Builds the
query URL (line 210) and performs one GET through `makeRequest`. -/
def GetStatus (s : CloudRecordingService) (t : Transport)
    (resourceID sid mode : String) : HandlerOutcome × List HandlerCall :=
  let url := s.baseURL ++ "/" ++ s.appID ++ "/cloud_recording/resourceid/" ++ resourceID ++
    "/sid/" ++ sid ++ "/mode/" ++ mode ++ "/query"
  let auth := customerAuth s
  (match (makeRequest t "GET" url auth).1 with
   | .error e => .errorJSON 500 e
   | .ok resp => .ok resp,
   [.http "GET" url auth])

/-- `UpdateSubscriptionList` (cloud_recording_handlers.go lines 236-262).
Builds the update URL (line 246, which uses only resourceid and sid) and
performs one POST through `makeRequest`. -/
def UpdateSubscriptionList (s : CloudRecordingService) (t : Transport)
    (resourceID sid : String) (req : StartRecordingRequest) :
    HandlerOutcome × List HandlerCall :=
  let url := s.baseURL ++ "/" ++ s.appID ++ "/cloud_recording/resourceid/" ++ resourceID ++
    "/sid/" ++ sid ++ "/update"
  let auth := customerAuth s
  let _ := req
  (match (makeRequest t "POST" url auth).1 with
   | .error e => .errorJSON 500 e
   | .ok resp => .ok resp,
   [.http "POST" url auth])

/-- `UpdateLayout` (cloud_recording_handlers.go lines 278-304).  Builds the
updateLayout URL (line 288, which uses only resourceid and sid) and performs
one POST through `makeRequest`. -/
def UpdateLayout (s : CloudRecordingService) (t : Transport)
    (resourceID sid : String) (req : StartRecordingRequest) :
    HandlerOutcome × List HandlerCall :=
  let url := s.baseURL ++ "/" ++ s.appID ++ "/cloud_recording/resourceid/" ++ resourceID ++
    "/sid/" ++ sid ++ "/updateLayout"
  let auth := customerAuth s
  let _ := req
  (match (makeRequest t "POST" url auth).1 with
   | .error e => .errorJSON 500 e
   | .ok resp => .ok resp,
   [.http "POST" url auth])

/-! ## The composite StartRecording orchestrator (src/unnamed/part_004) -/

/-- `Contains` helper used at part_004 line 88.  Modelled from the spec:
the helper itself is not under src/; spec section 4.1 specifies membership
of the mode in the allowed list. -/
def Contains : List String → String → Bool
  | [], _ => false
  | a :: rest, e => if a = e then true else Contains rest e

/-- The numeric value of a decimal digit character. -/
def digitVal (c : Char) : Nat := c.toNat - '0'.toNat

/-- The number denoted by a list of decimal digit characters. -/
def decimalToNat (cs : List Char) : Nat := cs.foldl (fun n c => n * 10 + digitVal c) 0

/-- Modelled from the spec: `generateUID` is not under src/.  Spec section
4.2: it returns a decimal string of a number in [1, 2^31 - 1), excluding the
reserved auto-assign value 0; in particular it is a non-empty numeric
string.  This predicate is the contract of its output. -/
def isGeneratedUID (s : String) : Bool :=
  !(s.toList.isEmpty) && s.toList.all Char.isDigit &&
    decide (1 ≤ decimalToNat s.toList) && decide (decimalToNat s.toList < 2 ^ 31)

/-- Modelled from the spec: the results of the three collaborator calls the
orchestrator makes, whose implementations are not under src/ or are external:
`HandleAcquireResourceReq` (declared at part_004 line 102, body absent — on
success it yields the acquired resourceId), the Token Issuer
`GenRtcToken` (external collaborator, spec section 1), and the upstream
round-trip of `HandleStartRecordingReq` (part_003: posts the start payload
and on success yields the sid parsed from the provider response). -/
structure Upstream where
  acquireResult : AcquireResourceRequest → Except String String
  tokenResult : TokenRequest → Except String String
  startResult : StartRecordingRequest → String → String → Except String String

/-- One upstream step of the composite StartRecording sequence, in the order
the orchestrator performed them. -/
inductive UpstreamCall where
  | acquire (req : AcquireResourceRequest)
  | issueToken (req : TokenRequest)
  | start (req : StartRecordingRequest) (resourceId : String) (mode : String)
  deriving DecidableEq

/-- The success body of StartRecording (part_004 lines 143-147):
`{"UID": uid, "resourceId": resourceID, "recordingId": recordingID}`. -/
structure StartRecordingResponse where
  UID : String
  resourceId : String
  recordingId : String
  deriving DecidableEq

/-- The outcome of the composite StartRecording handler, mirroring the
return paths of part_004 lines 86-147. -/
inductive StartOutcome where
  | invalidMode
  | acquireFailed (msg : String)
  | tokenFailed (msg : String)
  | startFailed (msg : String)
  | success (resp : StartRecordingResponse)
  deriving DecidableEq

/-- The provider-facing start payload built at part_004 lines 121-133.
Scene and ResourceExpiredHour are hard-coded to 1 and 24; StartParameter
takes the issued token, the service's own storageConfig and the caller's
recordingConfig; every other field keeps its Go zero value (in particular
ExcludeResourceIds stays nil). -/
def buildStartRecordingRequest (s : CloudRecordingService)
    (clientReq : ClientStartRecordingRequest) (uid token : String) :
    StartRecordingRequest :=
  { Cname := clientReq.ChannelName
    Uid := uid
    ClientRequest :=
      { Scene := 1
        ResourceExpiredHour := 24
        StartParameter :=
          { Token := token
            StorageConfig := s.storageConfig
            RecordingConfig := clientReq.RecordingConfig } } }

/-- The composite `StartRecording` orchestrator (part_004 lines 78-148),
after the caller's JSON body has been bound into `clientReq`.  `uid` is the
value returned by the spec-modelled `generateUID` (line 94); `up` supplies
the collaborator results.  Returns the outcome together with the list of
upstream calls performed, in order. -/
def StartRecording (s : CloudRecordingService) (up : Upstream)
    (clientReq : ClientStartRecordingRequest) (uid : String) :
    StartOutcome × List UpstreamCall :=
  let modes := ["individual", "mix", "web"]
  if !(Contains modes clientReq.RecordingMode) then
    (.invalidMode, [])
  else
    let acquireReq : AcquireResourceRequest :=
      { Cname := clientReq.ChannelName, Uid := uid, ClientRequest := [] }
    match up.acquireResult acquireReq with
    | .error e => (.acquireFailed ("Failed to acquire resource: " ++ e), [.acquire acquireReq])
    | .ok resourceID =>
        let tokenRequest : TokenRequest :=
          { TokenType := "rtc", Channel := clientReq.ChannelName, Uid := uid }
        match up.tokenResult tokenRequest with
        | .error e => (.tokenFailed e, [.acquire acquireReq, .issueToken tokenRequest])
        | .ok token =>
            let startReq := buildStartRecordingRequest s clientReq uid token
            match up.startResult startReq resourceID clientReq.RecordingMode with
            | .error e =>
                (.startFailed ("Failed to start recording: " ++ e),
                 [.acquire acquireReq, .issueToken tokenRequest,
                  .start startReq resourceID clientReq.RecordingMode])
            | .ok recordingID =>
                (.success { UID := uid, resourceId := resourceID, recordingId := recordingID },
                 [.acquire acquireReq, .issueToken tokenRequest,
                  .start startReq resourceID clientReq.RecordingMode])

/-! ## Theorems about the composite StartRecording orchestrator -/

/-- An output satisfying the generateUID contract is a non-empty string. -/
theorem isGeneratedUID_ne_empty {s : String} (h : isGeneratedUID s = true) : s ≠ "" := by
  intro he
  rw [he] at h
  exact absurd h (by decide)

/-- C1: for every StartRecording request whose recording mode is valid and
for which the Acquire call, the token issuance and the Start call all
succeed (each yielding its opaque non-empty handle), the orchestrator
performs exactly the upstream sequence Acquire, then IssueToken, then
Start — so neither IssueToken nor Start ever precedes Acquire — and the
response carries the three fields UID, resourceId and recordingId, all
non-empty. -/
theorem C1_start_success_sequence
    (s : CloudRecordingService) (up : Upstream)
    (clientReq : ClientStartRecordingRequest) (uid resourceID token recordingID : String)
    (hmode : Contains ["individual", "mix", "web"] clientReq.RecordingMode = true)
    (huid : isGeneratedUID uid = true)
    (hacq : up.acquireResult
      { Cname := clientReq.ChannelName, Uid := uid, ClientRequest := [] } = .ok resourceID)
    (hres : resourceID ≠ "")
    (htok : up.tokenResult
      { TokenType := "rtc", Channel := clientReq.ChannelName, Uid := uid } = .ok token)
    (hstart : up.startResult (buildStartRecordingRequest s clientReq uid token)
      resourceID clientReq.RecordingMode = .ok recordingID)
    (hrec : recordingID ≠ "") :
    StartRecording s up clientReq uid =
      (.success { UID := uid, resourceId := resourceID, recordingId := recordingID },
       [.acquire { Cname := clientReq.ChannelName, Uid := uid, ClientRequest := [] },
        .issueToken { TokenType := "rtc", Channel := clientReq.ChannelName, Uid := uid },
        .start (buildStartRecordingRequest s clientReq uid token) resourceID
          clientReq.RecordingMode]) ∧
    uid ≠ "" ∧ resourceID ≠ "" ∧ recordingID ≠ "" := by
  refine ⟨?_, isGeneratedUID_ne_empty huid, hres, hrec⟩
  simp [StartRecording, hmode, hacq, htok, hstart]

/-- Witness for C1: the full success path at concrete inputs (channel
testChannel, mode mix, uid 123456789, handles res-Y / sid-X). -/
theorem C1_start_success_sequence_witness :
    StartRecording {} ⟨fun _ => .ok "res-Y", fun _ => .ok "tok-Z", fun _ _ _ => .ok "sid-X"⟩
        { ChannelName := "testChannel", RecordingMode := "mix" } "123456789" =
      (.success { UID := "123456789", resourceId := "res-Y", recordingId := "sid-X" },
       [.acquire { Cname := "testChannel", Uid := "123456789", ClientRequest := [] },
        .issueToken { TokenType := "rtc", Channel := "testChannel", Uid := "123456789" },
        .start (buildStartRecordingRequest {}
          { ChannelName := "testChannel", RecordingMode := "mix" } "123456789" "tok-Z")
          "res-Y" "mix"]) ∧
    "123456789" ≠ "" ∧ "res-Y" ≠ "" ∧ "sid-X" ≠ "" :=
  C1_start_success_sequence {} _ _ "123456789" "res-Y" "tok-Z" "sid-X"
    (by decide) (by decide) rfl (by decide) rfl rfl (by decide)

/-- C2: a StartRecording request whose recordingMode is not one of
individual, mix, web fails with the validation outcome and performs zero
upstream calls. -/
theorem C2_invalid_mode_zero_calls
    (s : CloudRecordingService) (up : Upstream)
    (clientReq : ClientStartRecordingRequest) (uid : String)
    (h : Contains ["individual", "mix", "web"] clientReq.RecordingMode = false) :
    StartRecording s up clientReq uid = (.invalidMode, []) := by
  simp [StartRecording, h]

/-- Witness for C2: recordingMode bogus yields the validation outcome and an
empty call trace. -/
theorem C2_invalid_mode_zero_calls_witness :
    StartRecording {} ⟨fun _ => .ok "r", fun _ => .ok "t", fun _ _ _ => .ok "x"⟩
        { ChannelName := "testChannel", RecordingMode := "bogus" } "123456789" =
      (.invalidMode, []) :=
  C2_invalid_mode_zero_calls _ _ _ _ (by decide)

/-- C6: any step failure inside the composite sequence is terminal for the
request: an Acquire failure ends it with the acquire call alone in the
trace (no token issuance, no Start, no retry); a token-issuance failure
ends it with exactly the acquire and token steps in the trace (no Start and
no compensating upstream call for the already-acquired resource). -/
theorem C6_step_failure_terminal :
    (∀ (s : CloudRecordingService) (up : Upstream)
       (clientReq : ClientStartRecordingRequest) (uid e : String),
       Contains ["individual", "mix", "web"] clientReq.RecordingMode = true →
       up.acquireResult
         { Cname := clientReq.ChannelName, Uid := uid, ClientRequest := [] } = .error e →
       StartRecording s up clientReq uid =
         (.acquireFailed ("Failed to acquire resource: " ++ e),
          [.acquire { Cname := clientReq.ChannelName, Uid := uid, ClientRequest := [] }])) ∧
    (∀ (s : CloudRecordingService) (up : Upstream)
       (clientReq : ClientStartRecordingRequest) (uid resourceID e : String),
       Contains ["individual", "mix", "web"] clientReq.RecordingMode = true →
       up.acquireResult
         { Cname := clientReq.ChannelName, Uid := uid, ClientRequest := [] } = .ok resourceID →
       up.tokenResult
         { TokenType := "rtc", Channel := clientReq.ChannelName, Uid := uid } = .error e →
       StartRecording s up clientReq uid =
         (.tokenFailed e,
          [.acquire { Cname := clientReq.ChannelName, Uid := uid, ClientRequest := [] },
           .issueToken { TokenType := "rtc", Channel := clientReq.ChannelName, Uid := uid }])) := by
  constructor
  · intro s up clientReq uid e hmode hacq
    simp [StartRecording, hmode, hacq]
  · intro s up clientReq uid resourceID e hmode hacq htok
    simp [StartRecording, hmode, hacq, htok]

/-- Witness for C6: an acquire failure and a token failure at concrete
inputs, each with the terminal trace. -/
theorem C6_step_failure_terminal_witness :
    (StartRecording {} ⟨fun _ => .error "timeout", fun _ => .ok "t", fun _ _ _ => .ok "x"⟩
        { ChannelName := "ch", RecordingMode := "mix" } "42" =
      (.acquireFailed ("Failed to acquire resource: " ++ "timeout"),
       [.acquire { Cname := "ch", Uid := "42", ClientRequest := [] }])) ∧
    (StartRecording {} ⟨fun _ => .ok "res", fun _ => .error "sign fail", fun _ _ _ => .ok "x"⟩
        { ChannelName := "ch", RecordingMode := "mix" } "42" =
      (.tokenFailed "sign fail",
       [.acquire { Cname := "ch", Uid := "42", ClientRequest := [] },
        .issueToken { TokenType := "rtc", Channel := "ch", Uid := "42" }])) :=
  ⟨C6_step_failure_terminal.1 _ _ _ _ _ (by decide) rfl,
   C6_step_failure_terminal.2 _ _ _ _ "res" _ (by decide) rfl rfl⟩

/-- C7: the provider-facing request built by the orchestrator has scene 1
and resourceExpiredHour 24; the caller-facing request type has no field to
supply either, so this covers every StartRecording request. -/
theorem C7_provider_defaults (s : CloudRecordingService)
    (clientReq : ClientStartRecordingRequest) (uid token : String) :
    (buildStartRecordingRequest s clientReq uid token).ClientRequest.Scene = 1 ∧
    (buildStartRecordingRequest s clientReq uid token).ClientRequest.ResourceExpiredHour = 24 :=
  ⟨rfl, rfl⟩

/-- C9: the storageConfig embedded in the start payload is exactly the
service's server-side configured storage configuration, both as built and
in every start call appearing in any StartRecording trace; the caller's
request cannot influence it (the caller-facing type has no storage field). -/
theorem C9_storage_is_server_config :
    (∀ (s : CloudRecordingService) (clientReq : ClientStartRecordingRequest)
       (uid token : String),
       (buildStartRecordingRequest s clientReq uid token).ClientRequest.StartParameter.StorageConfig
         = s.storageConfig) ∧
    (∀ (s : CloudRecordingService) (up : Upstream)
       (clientReq : ClientStartRecordingRequest) (uid : String)
       (req : StartRecordingRequest) (rid mode : String),
       UpstreamCall.start req rid mode ∈ (StartRecording s up clientReq uid).2 →
       req.ClientRequest.StartParameter.StorageConfig = s.storageConfig) := by
  constructor
  · intro s clientReq uid token
    rfl
  · intro s up clientReq uid req rid mode hmem
    cases hb : Contains ["individual", "mix", "web"] clientReq.RecordingMode with
    | false => simp [StartRecording, hb] at hmem
    | true =>
      cases h1 : up.acquireResult
          { Cname := clientReq.ChannelName, Uid := uid, ClientRequest := [] } with
      | error e => simp [StartRecording, hb, h1] at hmem
      | ok resourceID =>
        cases h2 : up.tokenResult
            { TokenType := "rtc", Channel := clientReq.ChannelName, Uid := uid } with
        | error e => simp [StartRecording, hb, h1, h2] at hmem
        | ok token =>
          cases h3 : up.startResult (buildStartRecordingRequest s clientReq uid token)
              resourceID clientReq.RecordingMode with
          | error e =>
            simp [StartRecording, hb, h1, h2, h3] at hmem
            obtain ⟨hreq, -, -⟩ := hmem
            subst hreq
            rfl
          | ok recordingID =>
            simp [StartRecording, hb, h1, h2, h3] at hmem
            obtain ⟨hreq, -, -⟩ := hmem
            subst hreq
            rfl

/-- Witness for C9: in a concrete full-success run, the start call carries
exactly the service's configured storage bucket. -/
theorem C9_storage_is_server_config_witness :
    (buildStartRecordingRequest { storageConfig := { Bucket := "b1" } }
        { ChannelName := "ch", RecordingMode := "mix" } "42"
        "tok").ClientRequest.StartParameter.StorageConfig =
      ({ storageConfig := { Bucket := "b1" } } : CloudRecordingService).storageConfig :=
  C9_storage_is_server_config.2 { storageConfig := { Bucket := "b1" } }
    ⟨fun _ => .ok "res", fun _ => .ok "tok", fun _ _ _ => .ok "sid"⟩
    { ChannelName := "ch", RecordingMode := "mix" } "42"
    (buildStartRecordingRequest { storageConfig := { Bucket := "b1" } }
      { ChannelName := "ch", RecordingMode := "mix" } "42" "tok")
    "res" "mix" (by decide)

/-- C10: the provider-facing request built by the orchestrator always has an
empty ExcludeResourceIds list: part_004 lines 121-133 never set the field,
and the caller-facing ClientStartRecordingRequest type has no
excludeResourceIds field through which a JSON body could reach it. -/
theorem C10_exclude_resource_ids_ignored (s : CloudRecordingService)
    (clientReq : ClientStartRecordingRequest) (uid token : String) :
    (buildStartRecordingRequest s clientReq uid token).ClientRequest.ExcludeResourceIds = [] :=
  rfl

/-! ## Theorems about makeRequest and the passthrough handlers -/

/-- C3 counterexample: the error makeRequest returns for an upstream status
of at least 300 does not carry the status code.  Two provider responses
that differ only in status (301 vs 404) with the same body produce the very
same error value, so the status cannot be recovered from it; the claim that
the error carries both the status code and the body is false. -/
theorem C3_counterexample :
    (makeRequest (respTransport { statusCode := 301, body := "busy" })
        "GET" "http://api/x" "auth").1 =
      (makeRequest (respTransport { statusCode := 404, body := "busy" })
        "GET" "http://api/x" "auth").1 ∧
    (301 : Nat) ≠ 404 := by
  constructor
  · rfl
  · decide

/-- C3 amended: for every upstream response, a status below 300 makes
makeRequest return the body unchanged with no error, and a status of at
least 300 makes it return an error that carries the raw response body (but
only the body: the status code is not part of the error). -/
theorem C3_status_classification
    (t : Transport) (method url auth : String) (r : HttpResponse)
    (h : t method url (authorizationHeader auth) = .ok r) :
    (r.statusCode < 300 → (makeRequest t method url auth).1 = .ok r.body) ∧
    (300 ≤ r.statusCode →
      (makeRequest t method url auth).1 =
        .error ("error response from server: " ++ r.body)) := by
  constructor
  · intro hlt
    simp [makeRequest, h, Nat.not_le.mpr hlt]
  · intro hge
    simp [makeRequest, h, hge]

/-- Witness for the amended C3 at concrete responses: status 204 relays the
body, status 404 yields the body-carrying error. -/
theorem C3_status_classification_witness :
    (makeRequest (respTransport { statusCode := 204, body := "ok-body" })
        "GET" "http://api/x" "auth").1 = .ok "ok-body" ∧
    (makeRequest (respTransport { statusCode := 404, body := "not found" })
        "GET" "http://api/x" "auth").1 =
      .error ("error response from server: " ++ "not found") :=
  ⟨(C3_status_classification (respTransport { statusCode := 204, body := "ok-body" })
      "GET" "http://api/x" "auth" { statusCode := 204, body := "ok-body" } rfl).1 (by decide),
   (C3_status_classification (respTransport { statusCode := 404, body := "not found" })
      "GET" "http://api/x" "auth" { statusCode := 404, body := "not found" } rfl).2 (by decide)⟩

/-- C4 counterexample: the HTTP client a makeRequest call uses has no
timeout at all.  At a concrete call, the client constructed by
`client := &http.Client{}` (handlers.go line 324) is the zero-value client,
whose Timeout is 0, i.e. unbounded — so the claim that every request has a
bounded timeout (on one shared client) is false. -/
theorem C4_counterexample :
    (makeRequest (respTransport { statusCode := 200, body := "ok" })
        "POST" "http://api/x" "auth").2.timeout = none ∧
    (makeRequest (failTransport "context deadline exceeded")
        "POST" "http://api/x" "auth").2.timeout = none := by
  constructor
  · rfl
  · rfl

/-- C4 amended: every makeRequest call constructs its own fresh zero-value
HTTP client (per-call allocation, line 324), that client has no timeout
configured, a transport-level failure (network error or timeout) always
produces an error result carrying the failure, and a successful return can
only be the body of a genuine sub-300 provider response — never a silent
empty success manufactured from a failed request. -/
theorem C4_client_and_transport_failure
    (t : Transport) (method url auth : String) :
    (makeRequest t method url auth).2 = newGoHttpClient ∧
    newGoHttpClient.timeout = none ∧
    (∀ e, t method url (authorizationHeader auth) = .error e →
      (makeRequest t method url auth).1 = .error ("request failed: " ++ e)) ∧
    (∀ b, (makeRequest t method url auth).1 = .ok b →
      ∃ r, t method url (authorizationHeader auth) = .ok r ∧
        r.statusCode < 300 ∧ b = r.body) := by
  refine ⟨?_, rfl, ?_, ?_⟩
  · unfold makeRequest
    cases h : t method url (authorizationHeader auth) with
    | error e => simp
    | ok r =>
      by_cases hge : r.statusCode ≥ 300
      · simp [hge]
      · simp [hge]
  · intro e he
    simp [makeRequest, he]
  · intro b hb
    unfold makeRequest at hb
    cases h : t method url (authorizationHeader auth) with
    | error e => simp [h] at hb
    | ok r =>
      by_cases hge : r.statusCode ≥ 300
      · simp [h, hge] at hb
      · simp [h, hge] at hb
        exact ⟨r, rfl, Nat.not_le.mp hge, hb.symm⟩

/-- Witness for the amended C4: a concrete timed-out transport produces the
error result and the per-call zero-value client. -/
theorem C4_client_and_transport_failure_witness :
    (makeRequest (failTransport "context deadline exceeded")
        "POST" "http://api/x" "auth").2 = newGoHttpClient ∧
    newGoHttpClient.timeout = none ∧
    (makeRequest (failTransport "context deadline exceeded")
        "POST" "http://api/x" "auth").1 =
      .error ("request failed: " ++ "context deadline exceeded") :=
  ⟨(C4_client_and_transport_failure (failTransport "context deadline exceeded")
      "POST" "http://api/x" "auth").1,
   (C4_client_and_transport_failure (failTransport "context deadline exceeded")
      "POST" "http://api/x" "auth").2.1,
   (C4_client_and_transport_failure (failTransport "context deadline exceeded")
      "POST" "http://api/x" "auth").2.2.1 "context deadline exceeded" rfl⟩

/-- C5: each passthrough handler performs exactly one upstream HTTP request,
whose URL is built deterministically from the caller-supplied resourceid,
sid and mode following the documented path templates (stop, query, update,
updateLayout), and issues no token and no additional call. -/
theorem C5_passthrough_single_call
    (s : CloudRecordingService) (t : Transport)
    (resourceID sid mode : String) (req : StartRecordingRequest) :
    (StopRecording s t resourceID sid mode req).2 =
      [.http "POST"
        (s.baseURL ++ "/" ++ s.appID ++ "/cloud_recording/resourceid/" ++ resourceID ++
          "/sid/" ++ sid ++ "/mode/" ++ mode ++ "/stop") (customerAuth s)] ∧
    (GetStatus s t resourceID sid mode).2 =
      [.http "GET"
        (s.baseURL ++ "/" ++ s.appID ++ "/cloud_recording/resourceid/" ++ resourceID ++
          "/sid/" ++ sid ++ "/mode/" ++ mode ++ "/query") (customerAuth s)] ∧
    (UpdateSubscriptionList s t resourceID sid req).2 =
      [.http "POST"
        (s.baseURL ++ "/" ++ s.appID ++ "/cloud_recording/resourceid/" ++ resourceID ++
          "/sid/" ++ sid ++ "/update") (customerAuth s)] ∧
    (UpdateLayout s t resourceID sid req).2 =
      [.http "POST"
        (s.baseURL ++ "/" ++ s.appID ++ "/cloud_recording/resourceid/" ++ resourceID ++
          "/sid/" ++ sid ++ "/updateLayout") (customerAuth s)] :=
  ⟨rfl, rfl, rfl, rfl⟩

/-- C8: every upstream call of the cloud-recording handlers carries the
basic-auth value derived from the customer credential pair, and that value
depends only on customerID and customerCertificate — two service
configurations with the same customer pair but different application
credentials (appID, appCertificate) produce the identical auth value, so
the application pair never enters authentication. -/
theorem C8_customer_pair_auth :
    (∀ s : CloudRecordingService,
       customerAuth s = base64Encode (strBytes (s.customerID ++ ":" ++ s.customerCertificate))) ∧
    (∀ s1 s2 : CloudRecordingService, s1.customerID = s2.customerID →
       s1.customerCertificate = s2.customerCertificate → customerAuth s1 = customerAuth s2) ∧
    (∀ (s : CloudRecordingService) (t : Transport) (resourceID sid mode : String)
       (areq : AcquireResourceRequest) (sreq : StartRecordingRequest) (c : HandlerCall),
       c ∈ (AcquireResource s t areq).2 ∨
       c ∈ (StopRecording s t resourceID sid mode sreq).2 ∨
       c ∈ (GetStatus s t resourceID sid mode).2 ∨
       c ∈ (UpdateSubscriptionList s t resourceID sid sreq).2 ∨
       c ∈ (UpdateLayout s t resourceID sid sreq).2 →
       callAuth c = some (customerAuth s)) := by
  refine ⟨fun s => rfl, ?_, ?_⟩
  · intro s1 s2 h1 h2
    unfold customerAuth
    rw [h1, h2]
  · intro s t resourceID sid mode areq sreq c hc
    rcases hc with hc | hc | hc | hc | hc <;>
      · simp only [AcquireResource, StopRecording, GetStatus, UpdateSubscriptionList,
          UpdateLayout, List.mem_singleton] at hc
        subst hc
        rfl

/-- A sample configuration used by the C8 witness: application pair
app1/certA, customer pair cust/sec. -/
def svcApp1 : CloudRecordingService :=
  { appID := "app1", appCertificate := "certA", customerID := "cust",
    customerCertificate := "sec", baseURL := "base" }

/-- A second sample configuration for the C8 witness: same customer pair as
svcApp1 but a different application pair. -/
def svcApp2 : CloudRecordingService :=
  { appID := "app2", appCertificate := "certB", customerID := "cust",
    customerCertificate := "sec", baseURL := "base" }

/-- Witness for C8: two concrete configurations sharing the customer pair
but with different app credentials yield the same auth value, and the one
call of a concrete StopRecording run carries it. -/
theorem C8_customer_pair_auth_witness :
    customerAuth svcApp1 = customerAuth svcApp2 ∧
    callAuth (.http "POST"
        ("base" ++ "/" ++ "app1" ++ "/cloud_recording/resourceid/" ++ "res-Y" ++
          "/sid/" ++ "sid-X" ++ "/mode/" ++ "mix" ++ "/stop")
        (customerAuth svcApp1)) =
      some (customerAuth svcApp1) :=
  ⟨C8_customer_pair_auth.2.1 svcApp1 svcApp2 rfl rfl,
   C8_customer_pair_auth.2.2 svcApp1
      (respTransport { statusCode := 200, body := "ok" }) "res-Y" "sid-X" "mix" {} {}
      _ (Or.inr (Or.inl (by decide)))⟩
